import Mathlib

/-!
Shallow embedding of the valheim-docker (odin) core: the launch-environment
composer (`src/mods/bepinex.rs`) and the notification dispatch engine
(`src/notifications/mod.rs`, `src/notifications/telegram.rs`).

Ambient process configuration is made explicit: every function that in Rust
reads `std::env` takes an `EnvMap` argument.  The working directory and the
filesystem are likewise explicit parameters.
-/

namespace Odin

/-- The ambient process configuration: a variable is either unset (`none`)
or set to a string (possibly empty, mirroring `std::env::var`). -/
abbrev EnvMap := String → Option String

/-- Modelled from the spec: `utils/environment.rs` (ConfigResolver) is not in
the sources.  §4.1: "Returns the externally configured value for `name` if set
and non-empty-per-source-semantics, otherwise `default`." -/
def fetch_var (env : EnvMap) (name dflt : String) : String :=
  match env name with
  | some v => if v = "" then dflt else v
  | none => dflt

/-! ### URL validity (external `url` crate, `Url::parse`) -/

/-- Valid first character of a URL scheme (an ASCII letter). -/
def isSchemeStart (c : Char) : Bool := c.isAlpha

/-- Valid non-initial character of a URL scheme. -/
def isSchemeChar (c : Char) : Bool := c.isAlphanum || c = '+' || c = '-' || c = '.'

/-- A non-empty scheme: a letter followed by letters, digits, `+`, `-`, `.`. -/
def validScheme : List Char → Bool
  | [] => false
  | c :: cs => isSchemeStart c && cs.all isSchemeChar

/-- Modelled from the spec: `Url::parse` of the external `url` crate is not
repository code.  The spec (§4.6, §8) only requires that `"LOCALHOST"` is not
a valid URL and `"http://127.0.0.1:3000/dummy-url"` is; a string parses iff it
begins with a syntactically valid scheme terminated by `:`, which is exactly
the discriminating check on the examples of the spec. -/
def url_parse_is_ok (s : String) : Bool :=
  s.toList.contains ':' && validScheme (s.toList.takeWhile (· ≠ ':'))

/-! ### Webhook URL handling (`src/notifications/mod.rs`) -/

/-- Constant `WEBHOOK_URL` of `src/notifications/mod.rs`. -/
def WEBHOOK_URL : String := "WEBHOOK_URL"

/-- Rust `str::trim_start_matches('"')`: removes EVERY leading `"` character. -/
def trimStartQuotes (l : List Char) : List Char := l.dropWhile (· = '"')

/-- Rust `str::trim_end_matches('"')`: removes EVERY trailing `"` character. -/
def trimEndQuotes (l : List Char) : List Char :=
  (l.reverse.dropWhile (· = '"')).reverse

/-- Embedding of `fetch_webhook_url` of `src/notifications/mod.rs`:
`fetch_var(WEBHOOK_URL, "").trim_start_matches('"').trim_end_matches('"')`. -/
def fetch_webhook_url (env : EnvMap) : String :=
  String.mk (trimEndQuotes (trimStartQuotes (fetch_var env WEBHOOK_URL "").toList))

/-- Embedding of `is_webhook_enabled` of `src/notifications/mod.rs`: false on an empty
fetched URL, otherwise whether the URL parses. -/
def is_webhook_enabled (env : EnvMap) : Bool :=
  let url := fetch_webhook_url env
  if url.isEmpty then false else url_parse_is_ok url

/-- Spec-side reading of C1, for refinement comparison: trim at most ONE
leading and ONE trailing quote character from the configured value. -/
def fetch_webhook_url_single_trim (env : EnvMap) : String :=
  let l := (fetch_var env WEBHOOK_URL "").toList
  let l1 := match l with
    | '"' :: rest => rest
    | other => other
  let l2 := match l1.reverse with
    | '"' :: rest => rest.reverse
    | _ => l1
  String.mk l2

/-- Spec-side reading of the `isEnabled` of C1, using the single-character trim. -/
def is_webhook_enabled_single_trim (env : EnvMap) : Bool :=
  let url := fetch_webhook_url_single_trim env
  if url.isEmpty then false else url_parse_is_ok url

/-- A concrete configuration whose webhook URL is wrapped in TWO quote
characters on each side. -/
def envDoubleQuoted : EnvMap := fun n =>
  if n = "WEBHOOK_URL" then some "\"\"http://a\"\"" else none

/-- Configurations for the three `isEnabled` examples of the spec. -/
def envLocalhost : EnvMap := fun n =>
  if n = "WEBHOOK_URL" then some "LOCALHOST" else none

def envDummyUrl : EnvMap := fun n =>
  if n = "WEBHOOK_URL" then some "http://127.0.0.1:3000/dummy-url" else none

def envUnset : EnvMap := fun _ => none

/-! ### Launch environment composer (`src/mods/bepinex.rs`) -/

def DYLD_LIBRARY_PATH_VAR : String := "DYLD_LIBRARY_PATH"
def DYLD_INSERT_LIBRARIES_VAR : String := "DYLD_INSERT_LIBRARIES"
def DOORSTOP_ENABLE_VAR : String := "DOORSTOP_ENABLE"
def DOORSTOP_LIB_VAR : String := "DOORSTOP_LIB"
def DOORSTOP_LIBS_VAR : String := "DOORSTOP_LIBS"
def DOORSTOP_INVOKE_DLL_PATH_VAR : String := "DOORSTOP_INVOKE_DLL_PATH"
def DOORSTOP_CORLIB_OVERRIDE_PATH_VAR : String := "DOORSTOP_CORLIB_OVERRIDE_PATH"

/-- Modelled from the spec: `constants.rs` is not in the sources; §4.2 lists
the Linux preload-list override key as `LD_PRELOAD`. -/
def LD_PRELOAD_VAR : String := "LD_PRELOAD"

/-- Modelled from the spec: `constants.rs` is not in the sources; §4.2 lists
the Linux library-search-path override key as `LD_LIBRARY_PATH`. -/
def LD_LIBRARY_PATH_VAR : String := "LD_LIBRARY_PATH"

/-- Embedding of `doorstop_lib` of `src/mods/bepinex.rs`. -/
def doorstop_lib (env : EnvMap) : String :=
  fetch_var env DOORSTOP_LIB_VAR "libdoorstop_x64.so"

/-- Embedding of `doorstop_libs` of `src/mods/bepinex.rs` (`get_working_dir` of the
missing `utils` module is made an explicit `wd` parameter). -/
def doorstop_libs (env : EnvMap) (wd : String) : String :=
  fetch_var env DOORSTOP_LIBS_VAR (wd ++ "/doorstop_libs")

/-- Rust `str::replace(":", "")`: removes every `:` character. -/
def removeColons (s : String) : String :=
  String.mk (s.toList.filter (· ≠ ':'))

/-- Embedding of `doorstop_insert_lib` of `src/mods/bepinex.rs`. -/
def doorstop_insert_lib (env : EnvMap) (wd : String) : String :=
  fetch_var env DYLD_INSERT_LIBRARIES_VAR
    (doorstop_libs env wd ++ "/" ++ removeColons (doorstop_lib env))

/-- Embedding of `doorstop_invoke_dll` of `src/mods/bepinex.rs`. -/
def doorstop_invoke_dll (env : EnvMap) (wd : String) : String :=
  fetch_var env DOORSTOP_INVOKE_DLL_PATH_VAR
    (wd ++ "/BepInEx/core/BepInEx.Preloader.dll")

/-- Embedding of `BepInExEnvironment` of `src/mods/bepinex.rs`. -/
structure BepInExEnvironment where
  ld_preload : String
  ld_library_path : String
  doorstop_enable : String
  doorstop_invoke_dll : String
  doorstop_corlib_override_path : String
  dyld_library_path : String
  dyld_insert_libraries : String
  deriving DecidableEq, Repr

/-- Embedding of `build_environment` of `src/mods/bepinex.rs`.  `ld_preload` is
`fetch_var(LD_PRELOAD, "").add(doorstop_lib())`: plain string concatenation.
`doorstop_enable` is `true.to_string().to_uppercase()`, i.e. `"TRUE"`. -/
def build_environment (env : EnvMap) (wd : String) : BepInExEnvironment :=
  { ld_preload := fetch_var env LD_PRELOAD_VAR "" ++ doorstop_lib env
    ld_library_path :=
      fetch_var env LD_LIBRARY_PATH_VAR ("./linux64:" ++ doorstop_libs env wd)
    doorstop_enable := "TRUE"
    doorstop_invoke_dll := doorstop_invoke_dll env wd
    doorstop_corlib_override_path :=
      fetch_var env DOORSTOP_CORLIB_OVERRIDE_PATH_VAR (wd ++ "/" ++ "unstripped_corlib")
    dyld_library_path := fetch_var env DYLD_LIBRARY_PATH_VAR (doorstop_libs env wd)
    dyld_insert_libraries :=
      fetch_var env DYLD_INSERT_LIBRARIES_VAR (doorstop_insert_lib env wd) }

/-- Modelled from the spec: `path_exists` of the missing `utils` module; §6
calls it a plain existence check, so the filesystem is a boolean predicate on
path-like strings. -/
def path_exists (fs : String → Bool) (v : String) : Bool := fs v

/-- Embedding of `is_bepinex_installed` of `src/mods/bepinex.rs`: composes the environment
and requires `path_exists == true` for the four checked values. -/
def is_bepinex_installed (env : EnvMap) (wd : String) (fs : String → Bool) : Bool :=
  let bepinex_env := build_environment env wd
  let checks := [bepinex_env.doorstop_corlib_override_path,
                 bepinex_env.dyld_insert_libraries,
                 bepinex_env.dyld_library_path,
                 bepinex_env.doorstop_invoke_dll]
  let expected_state := true
  checks.all (fun v => path_exists fs v == expected_state)

/-- Embedding of `invoke` of `src/mods/bepinex.rs`, restricted to its observable effect on
the child process environment: the ordered list of `.env(key, value)` calls.
`DYLD_LIBRARY_PATH` is passed through `format!("\"{}\"", value)`. -/
def invoke_env_calls (e : BepInExEnvironment) : List (String × String) :=
  [(DOORSTOP_ENABLE_VAR, e.doorstop_enable),
   (DOORSTOP_INVOKE_DLL_PATH_VAR, e.doorstop_invoke_dll),
   (DOORSTOP_CORLIB_OVERRIDE_PATH_VAR, e.doorstop_corlib_override_path),
   (LD_LIBRARY_PATH_VAR, e.ld_library_path),
   (LD_PRELOAD_VAR, e.ld_preload),
   (DYLD_LIBRARY_PATH_VAR, "\"" ++ e.dyld_library_path ++ "\""),
   (DYLD_INSERT_LIBRARIES_VAR, e.dyld_insert_libraries)]

/-- Spec-side description for C7: the seven raw composed bindings in emission
order, before any quoting. -/
def raw_bindings (e : BepInExEnvironment) : List (String × String) :=
  [(DOORSTOP_ENABLE_VAR, e.doorstop_enable),
   (DOORSTOP_INVOKE_DLL_PATH_VAR, e.doorstop_invoke_dll),
   (DOORSTOP_CORLIB_OVERRIDE_PATH_VAR, e.doorstop_corlib_override_path),
   (LD_LIBRARY_PATH_VAR, e.ld_library_path),
   (LD_PRELOAD_VAR, e.ld_preload),
   (DYLD_LIBRARY_PATH_VAR, e.dyld_library_path),
   (DYLD_INSERT_LIBRARIES_VAR, e.dyld_insert_libraries)]

/-- Spec-side description for C7: emit every binding unquoted except the one
whose key is `DYLD_LIBRARY_PATH`, whose value is wrapped in literal
double-quote characters. -/
def quoted_emission (e : BepInExEnvironment) : List (String × String) :=
  (raw_bindings e).map (fun kv =>
    if kv.1 = DYLD_LIBRARY_PATH_VAR then (kv.1, "\"" ++ kv.2 ++ "\"") else kv)

/-! ### Casing transforms (external `inflections` crate)

`to_constant_case` and `to_title_case` split a string into words (at
non-alphanumeric separators, at a lower/digit→upper transition, and before
the last upper of an upper-run followed by a lower), then re-case and join. -/

/-- One step of the word splitter: `cur` is the current word, reversed. -/
def splitWordsAux : List Char → List Char → List (List Char)
  | [], cur => if cur.isEmpty then [] else [cur.reverse]
  | c :: rest, cur =>
    if !c.isAlphanum then
      (if cur.isEmpty then [] else [cur.reverse]) ++ splitWordsAux rest []
    else
      match cur with
      | [] => splitWordsAux rest [c]
      | p :: before =>
        if c.isUpper && (p.isLower || p.isDigit) then
          cur.reverse :: splitWordsAux rest [c]
        else if c.isLower && p.isUpper && !before.isEmpty && before.all Char.isUpper then
          before.reverse :: splitWordsAux rest [c, p]
        else
          splitWordsAux rest (c :: cur)

/-- Word splitting of the `inflections` crate. -/
def splitWords (s : String) : List (List Char) := splitWordsAux s.toList []

/-- Embedding of `inflections::case::to_constant_case`: upper-case words joined by `_`. -/
def to_constant_case (s : String) : String :=
  String.intercalate "_" ((splitWords s).map (fun w => String.mk (w.map Char.toUpper)))

/-- Capitalize one word: first char upper, the rest lower. -/
def capitalizeWord : List Char → String
  | [] => ""
  | c :: cs => String.mk (c.toUpper :: cs.map Char.toLower)

/-- Embedding of `inflections::case::to_title_case`: capitalized words joined by spaces. -/
def to_title_case (s : String) : String :=
  String.intercalate " " ((splitWords s).map capitalizeWord)

/-! ### Event model (`src/notifications/enums`, not in the sources) -/

/-- Modelled from the spec: the `enums::event_status` module is not in the
sources; §3 gives status ∈ \x7bRunning, Successful, Failed\x7d. -/
inductive EventStatus
  | Running
  | Successful
  | Failed
  deriving DecidableEq, Repr, Fintype

/-- Modelled from the spec: the `enums::notification_event` module is not in
the sources; §3 gives kind ∈ \x7bStart, Stop, Backup, Update, Broadcast\x7d, and
the in-source tests use `NotificationEvent::Broadcast` without a status. -/
inductive NotificationEvent
  | Broadcast
  | Start (s : EventStatus)
  | Stop (s : EventStatus)
  | Backup (s : EventStatus)
  | Update (s : EventStatus)
  deriving DecidableEq, Repr, Fintype

/-- Modelled from the spec: `EventType` of the missing `enums` module: the structured
(name, status) string pair of §3/§4.5. -/
structure EventType where
  name : String
  status : String
  deriving DecidableEq, Repr

def EventStatus.toStr : EventStatus → String
  | .Running => "Running"
  | .Successful => "Successful"
  | .Failed => "Failed"

/-- Modelled from the spec: `to_event_type` of the missing `enums` module;
the pair of the variant name and its status string.  `Broadcast` carries no
status, and its fixed status string is not observed by any claim. -/
def NotificationEvent.to_event_type : NotificationEvent → EventType
  | .Broadcast => { name := "Broadcast", status := "Triggered" }
  | .Start s => { name := "Start", status := s.toStr }
  | .Stop s => { name := "Stop", status := s.toStr }
  | .Backup s => { name := "Backup", status := s.toStr }
  | .Update s => { name := "Update", status := s.toStr }

/-- Modelled from the spec: the canonical display string of §4.5; the
in-source test `parse_enum_create_notification` pins it to
`"{name} {status}"`, and `parse_enum_as_string` pins `Broadcast` to a string
whose title case is `"Broadcast"`. -/
def NotificationEvent.to_string : NotificationEvent → String
  | .Broadcast => "Broadcast"
  | e => e.to_event_type.name ++ " " ++ e.to_event_type.status

/-! ### Notification messages and dispatch (`src/notifications/mod.rs`) -/

/-- Embedding of `NotificationMessage` of `src/notifications/mod.rs`. -/
structure NotificationMessage where
  event_type : EventType
  event_message : String
  timestamp : String
  deriving DecidableEq, Repr

/-- Rust `str::to_lowercase`, embedded over character lists. -/
def rToLowercase (s : String) : String := String.mk (s.toList.map Char.toLower)

/-- Embedding of `parse_webhook_env_var` of `src/notifications/mod.rs`. -/
def parse_webhook_env_var (event_type : EventType) : String :=
  if rToLowercase event_type.name = "broadcast" then
    to_constant_case ("WEBHOOK_" ++ event_type.name ++ "_MESSAGE")
  else
    to_constant_case
      ("WEBHOOK_" ++ event_type.name ++ "_" ++ event_type.status ++ "_MESSAGE")

/-- Embedding of `create_notification_message` of `src/notifications/mod.rs`.
`Local::now().to_rfc3339()` is made an explicit `now` parameter. -/
def create_notification_message (e : NotificationEvent) (now : String) :
    NotificationMessage :=
  { event_type := e.to_event_type
    event_message := "Server Status: " ++ to_title_case e.to_string
    timestamp := now }

/-! ### Providers (`src/notifications/telegram.rs`, missing `discord.rs`) -/

/-- Constant `TELEGRAM_API_BASE` of `src/notifications/telegram.rs`. -/
def TELEGRAM_API_BASE : String := "https://api.telegram.org/bot"

/-- Rust `str::starts_with`, embedded over character lists. -/
def rStartsWith (s base : String) : Bool := base.toList.isPrefixOf s.toList

/-- Embedding of `is_telegram_api` of `src/notifications/telegram.rs`. -/
def is_telegram_api (webhook_url : String) : Bool :=
  rStartsWith webhook_url TELEGRAM_API_BASE

/-- Modelled from the spec: `discord.rs` is not in the sources; §4.7 says
classification is a prefix test against the literal webhook base of the provider
endpoint; for the Discord chat platform that is this URL. -/
def DISCORD_WEBHOOK_BASE : String := "https://discord.com/api/webhooks"

/-- Modelled from the spec: `is_discord_webhook` of the missing
`discord.rs`, a prefix test like the Telegram one. -/
def is_discord_webhook (webhook_url : String) : Bool :=
  rStartsWith webhook_url DISCORD_WEBHOOK_BASE

/-- Modelled from the spec: `DiscordWebHookBody` of the missing
`discord.rs`; §4.8 only says it is the body shape of that platform built from the
message, and no claim observes its fields. -/
structure DiscordWebHookBody where
  content : String
  deriving DecidableEq, Repr

/-- Modelled from the spec: the Discord body built from a message. -/
def DiscordWebHookBody.from (event : NotificationMessage) : DiscordWebHookBody :=
  { content := event.event_message }

/-- Embedding of `TelegramAPISendMessageBody` of `src/notifications/telegram.rs`. -/
structure TelegramAPISendMessageBody where
  chat_id : String
  text : String
  deriving DecidableEq, Repr

/-- Embedding of `TelegramAPISendMessageBody::new` of `src/notifications/telegram.rs`:
`chat_id` is `env::var("TELEGRAM_CHAT_ID").unwrap()`, so an unset variable
panics (the process aborts), modelled as `none`. -/
def TelegramAPISendMessageBody.new (env : EnvMap) (event : NotificationMessage) :
    Option TelegramAPISendMessageBody :=
  match env "TELEGRAM_CHAT_ID" with
  | some chat_id =>
      some { chat_id := chat_id
             text := event.event_type.name ++ ": " ++ event.event_message }
  | none => none

/-- The provider-specific JSON body attached to the request in
`send_custom_notification`. -/
inductive WebhookPayload
  | discord (b : DiscordWebHookBody)
  | telegram (b : TelegramAPISendMessageBody)
  | generic (m : NotificationMessage)
  deriving DecidableEq, Repr

/-- The POST request assembled by `send_custom_notification`: target URL and
JSON payload. -/
structure SentRequest where
  url : String
  payload : WebhookPayload
  deriving DecidableEq, Repr

/-- Payload selection of `send_custom_notification` (lines 105-117 of
`src/notifications/mod.rs`): Discord checked first, then Telegram (which may
abort, hence `Option`), else the raw message. -/
def build_payload (env : EnvMap) (webhook_url : String)
    (notification : NotificationMessage) : Option WebhookPayload :=
  if is_discord_webhook webhook_url then
    some (.discord (DiscordWebHookBody.from notification))
  else if is_telegram_api webhook_url then
    (TelegramAPISendMessageBody.new env notification).map .telegram
  else
    some (.generic notification)

/-- The notification record `send_custom_notification` sends: the default
message for the event with only `event_message` overwritten. -/
def custom_notification (e : NotificationEvent) (now message : String) :
    NotificationMessage :=
  { create_notification_message e now with event_message := message }

/-- Embedding of `send_custom_notification` of `src/notifications/mod.rs`, as the request
it hands to `handle_request`; `none` models the Telegram panic path. -/
def send_custom_notification (env : EnvMap) (e : NotificationEvent)
    (now webhook_url message : String) : Option SentRequest :=
  (build_payload env webhook_url (custom_notification e now message)).map
    (fun p => { url := webhook_url, payload := p })

/-! ### Response handling (`handle_request`) and `send_notification` -/

/-- The outcome of `request.send()` in `handle_request`: a received response
with its status and the result of the subsequent `text()` body read (`none`
when reading the body fails), or a transport-level error that may carry a
status. -/
inductive TransportResult
  | ok (status : Nat) (text : Option String)
  | err (status : Option Nat)
  deriving DecidableEq, Repr

/-- What `handle_request` logs when it returns to its caller. -/
inductive LogOutcome
  | success
  | failure (status : Nat) (body : Option String)
  deriving DecidableEq, Repr

/-- Embedding of `handle_request` of `src/notifications/mod.rs`.  On a
received response it first runs `parsed_response.text().unwrap()`, which
panics and aborts the process when the body read fails (modelled as `none`);
otherwise 200/204/201 log success and any other status logs an error with
the body; a transport error logs an error with the carried status or
`StatusCode::INTERNAL_SERVER_ERROR` (500). -/
def handle_request : TransportResult → Option LogOutcome
  | .ok status text =>
      match text with
      | some response_message =>
          some (if status = 200 || status = 204 || status = 201 then .success
                else .failure status (some response_message))
      | none => none
  | .err status => some (.failure (status.getD 500) none)

/-- The observable result of `send_notification`. -/
inductive DispatchResult
  | skipped
  | aborted
  | sent (r : SentRequest)
  deriving DecidableEq, Repr

/-- Embedding of `send_notification` of `src/notifications/mod.rs`: when the webhook is
enabled, the override message is read with raw `env::var(key)` and
`unwrap_or(default)`, then passed to `send_custom_notification`. -/
def send_notification (env : EnvMap) (e : NotificationEvent) (now : String) :
    DispatchResult :=
  if is_webhook_enabled env then
    let event := create_notification_message e now
    let env_var_name := parse_webhook_env_var event.event_type
    let notification_message := (env env_var_name).getD event.event_message
    match send_custom_notification env e now (fetch_webhook_url env)
        notification_message with
    | some r => .sent r
    | none => .aborted
  else .skipped

/-! ### Concrete configurations and filesystems used by the witnesses -/

/-- A configuration with a colon-bearing library name and library dir `/d`. -/
def envColonLib : EnvMap := fun n =>
  if n = "DOORSTOP_LIB" then some "lib:doorstop:x64.so"
  else if n = "DOORSTOP_LIBS" then some "/d"
  else none

/-- A configuration with a valid webhook URL and an event override message
SET TO THE EMPTY STRING. -/
def envEmptyOverride : EnvMap := fun n =>
  if n = "WEBHOOK_URL" then some "http://127.0.0.1:3000/dummy-url"
  else if n = "WEBHOOK_STOP_RUNNING_MESSAGE" then some ""
  else none

/-- A configuration with only the Telegram chat identifier set. -/
def envChatId : EnvMap := fun n =>
  if n = "TELEGRAM_CHAT_ID" then some "42" else none

/-- A filesystem on which every path exists. -/
def fsAll : String → Bool := fun _ => true

/-- A filesystem on which every path but `missing` exists. -/
def fsExcept (missing : String) : String → Bool := fun p => decide (p ≠ missing)

/-- Spec-side transform for C3: `UPPER_SNAKE` of a single-word kind or status
name is just its upper-casing. -/
def upper_snake (s : String) : String := String.mk (s.toList.map Char.toUpper)

/-! ## Theorems -/

/-- Helper: a URL classified as Telegram bot API is never classified as a
Discord webhook, because neither literal base endpoint is a prefix of the
other. -/
theorem telegram_not_discord (url : String) (h : is_telegram_api url = true) :
    is_discord_webhook url = false := by
  unfold is_telegram_api rStartsWith at h
  unfold is_discord_webhook rStartsWith
  rw [List.isPrefixOf_iff_prefix] at h
  rw [Bool.eq_false_iff]
  intro hc
  rw [List.isPrefixOf_iff_prefix] at hc
  rcases List.prefix_or_prefix_of_prefix h hc with hp | hp
  · exact absurd hp (by decide)
  · exact absurd hp (by decide)

/-- C1, counterexample: the claim describes the fetch as trimming a SINGLE
leading and trailing quote character, but the code trims every one.  With
`WEBHOOK_URL` set to a URL wrapped in two quote characters per side, the code
returns `true` while the claimed behaviour returns `false`. -/
theorem c1_single_trim_counterexample :
    is_webhook_enabled envDoubleQuoted = true ∧
    is_webhook_enabled_single_trim envDoubleQuoted = false ∧
    is_webhook_enabled envDoubleQuoted ≠ is_webhook_enabled_single_trim envDoubleQuoted := by
  decide

/-- C1, amended: `is_webhook_enabled` fetches the configured URL trimming ALL
leading and trailing literal quote characters, returns false when the result
is empty, and otherwise returns true exactly when the string parses as a
valid URL; in particular it is false for `"LOCALHOST"`, true for
`"http://127.0.0.1:3000/dummy-url"`, and false when the URL is unset. -/
theorem is_webhook_enabled_spec (env : EnvMap) :
    (is_webhook_enabled env = true ↔
      fetch_webhook_url env ≠ "" ∧ url_parse_is_ok (fetch_webhook_url env) = true)
    ∧ (fetch_webhook_url env).toList =
        ((((fetch_var env WEBHOOK_URL "").toList.dropWhile (· = '"')).reverse.dropWhile
          (· = '"')).reverse)
    ∧ is_webhook_enabled envLocalhost = false
    ∧ is_webhook_enabled envDummyUrl = true
    ∧ is_webhook_enabled envUnset = false := by
  refine ⟨?_, rfl, by decide, by decide, by decide⟩
  unfold is_webhook_enabled
  by_cases h : (fetch_webhook_url env).isEmpty
  · have h0 : fetch_webhook_url env = "" := (String.isEmpty_iff _).mp h
    simp [h, h0]
    decide
  · have h0 : ¬ fetch_webhook_url env = "" := fun e => h ((String.isEmpty_iff _).mpr e)
    simp [h, h0]

/-- C2: the composed preload-list binding equals the resolved base string
(the configured override, or empty when none is set) immediately followed by
the resolved mod-loader library name, with no separator; with no override and
the default library name it equals exactly `"libdoorstop_x64.so"`. -/
theorem build_environment_ld_preload (env : EnvMap) (wd : String) :
    (build_environment env wd).ld_preload =
      fetch_var env LD_PRELOAD_VAR "" ++ doorstop_lib env
    ∧ (build_environment envUnset wd).ld_preload = "libdoorstop_x64.so" :=
  ⟨rfl, rfl⟩

/-- C3: for every lifecycle event, the override-message lookup key is
`WEBHOOK_BROADCAST_MESSAGE` when the kind name equals `broadcast`
case-insensitively, and otherwise `WEBHOOK_` ++ the upper-snake kind ++ `_`
++ the upper-snake status ++ `_MESSAGE`; kind `Stop` with status `Running`
yields `WEBHOOK_STOP_RUNNING_MESSAGE`. -/
theorem parse_webhook_env_var_key :
    (∀ e : NotificationEvent,
      parse_webhook_env_var e.to_event_type =
        if rToLowercase e.to_event_type.name = "broadcast" then
          "WEBHOOK_BROADCAST_MESSAGE"
        else
          "WEBHOOK_" ++ upper_snake e.to_event_type.name ++ "_" ++
            upper_snake e.to_event_type.status ++ "_MESSAGE")
    ∧ parse_webhook_env_var { name := "Stop", status := "Running" } =
        "WEBHOOK_STOP_RUNNING_MESSAGE" := by
  constructor
  · decide
  · decide

/-- C4: `is_bepinex_installed` is true iff all four checked values of the
composed environment (runtime-override path, mac preload list, mac library
search path, mod-loader entry DLL path) exist on the filesystem; if any
single one does not exist, the result is false. -/
theorem is_bepinex_installed_iff (env : EnvMap) (wd : String) (fs : String → Bool) :
    (is_bepinex_installed env wd fs = true ↔
      fs (build_environment env wd).doorstop_corlib_override_path = true ∧
      fs (build_environment env wd).dyld_insert_libraries = true ∧
      fs (build_environment env wd).dyld_library_path = true ∧
      fs (build_environment env wd).doorstop_invoke_dll = true)
    ∧ (fs (build_environment env wd).doorstop_corlib_override_path = false →
        is_bepinex_installed env wd fs = false)
    ∧ (fs (build_environment env wd).dyld_insert_libraries = false →
        is_bepinex_installed env wd fs = false)
    ∧ (fs (build_environment env wd).dyld_library_path = false →
        is_bepinex_installed env wd fs = false)
    ∧ (fs (build_environment env wd).doorstop_invoke_dll = false →
        is_bepinex_installed env wd fs = false) := by
  have hall : is_bepinex_installed env wd fs = true ↔
      fs (build_environment env wd).doorstop_corlib_override_path = true ∧
      fs (build_environment env wd).dyld_insert_libraries = true ∧
      fs (build_environment env wd).dyld_library_path = true ∧
      fs (build_environment env wd).doorstop_invoke_dll = true := by
    simp [is_bepinex_installed, path_exists]
  refine ⟨hall, fun h => ?_, fun h => ?_, fun h => ?_, fun h => ?_⟩ <;>
    · cases hi : is_bepinex_installed env wd fs
      · rfl
      · have h4 := hall.mp hi
        simp only [h] at h4
        tauto

/-- C4 witness: with no overrides and working dir `/wd`, installation is
detected on a full filesystem, and deleting any single one of the four
required paths flips the result to false (four independent scenarios). -/
theorem is_bepinex_installed_iff_witness :
    is_bepinex_installed envUnset "/wd" fsAll = true ∧
    is_bepinex_installed envUnset "/wd" (fsExcept "/wd/unstripped_corlib") = false ∧
    is_bepinex_installed envUnset "/wd"
      (fsExcept "/wd/doorstop_libs/libdoorstop_x64.so") = false ∧
    is_bepinex_installed envUnset "/wd" (fsExcept "/wd/doorstop_libs") = false ∧
    is_bepinex_installed envUnset "/wd"
      (fsExcept "/wd/BepInEx/core/BepInEx.Preloader.dll") = false :=
  ⟨(is_bepinex_installed_iff envUnset "/wd" fsAll).1.mpr (by decide),
   (is_bepinex_installed_iff envUnset "/wd" _).2.1 (by decide),
   (is_bepinex_installed_iff envUnset "/wd" _).2.2.1 (by decide),
   (is_bepinex_installed_iff envUnset "/wd" _).2.2.2.1 (by decide),
   (is_bepinex_installed_iff envUnset "/wd" _).2.2.2.2 (by decide)⟩

/-- C5: when the target URL starts with the Telegram bot-API base, the
payload carries a `chat_id` read from the required `TELEGRAM_CHAT_ID`
configuration value and a `text` combining the event-type name and the event
message; when `TELEGRAM_CHAT_ID` is unset on this path, payload construction
aborts the process (modelled as `none`). -/
theorem telegram_payload_spec (env : EnvMap) (e : NotificationEvent)
    (now url message : String) (h : is_telegram_api url = true) :
    (∀ chat_id, env "TELEGRAM_CHAT_ID" = some chat_id →
      send_custom_notification env e now url message =
        some { url := url
               payload := .telegram { chat_id := chat_id
                                      text := e.to_event_type.name ++ ": " ++ message } })
    ∧ (env "TELEGRAM_CHAT_ID" = none →
        send_custom_notification env e now url message = none) := by
  have hd := telegram_not_discord url h
  constructor
  · intro c hc
    simp [send_custom_notification, build_payload, hd, h,
      TelegramAPISendMessageBody.new, hc, custom_notification,
      create_notification_message]
  · intro hc
    simp [send_custom_notification, build_payload, hd, h,
      TelegramAPISendMessageBody.new, hc]

/-- C5 witness: concrete Telegram dispatches, one with the chat identifier
set and one with it absent. -/
theorem telegram_payload_spec_witness :
    send_custom_notification envChatId (.Stop .Running) "T"
        "https://api.telegram.org/bot99/send" "msg" =
      some { url := "https://api.telegram.org/bot99/send"
             payload := .telegram { chat_id := "42", text := "Stop: msg" } }
    ∧ send_custom_notification envUnset (.Stop .Running) "T"
        "https://api.telegram.org/bot99/send" "msg" = none := by
  constructor
  · exact ((telegram_payload_spec envChatId (.Stop .Running) "T"
      "https://api.telegram.org/bot99/send" "msg" (by decide)).1 "42"
        (by decide)).trans (by decide)
  · exact (telegram_payload_spec envUnset (.Stop .Running) "T"
      "https://api.telegram.org/bot99/send" "msg" (by decide)).2 (by decide)

/-- C6, counterexample: the claim says every dispatched notification returns
normally, but `handle_request` unwraps the body read of every received
response before matching on the status, so a response whose body read fails
aborts the process — even one with success status 204, and likewise one with
status 500 that the claim says is logged and recovered. -/
theorem c6_body_read_counterexample :
    handle_request (.ok 204 none) = none ∧
    handle_request (.ok 500 none) = none := by
  decide

/-- C6, amended: provided the body of a received response is successfully
read, a status of 200, 201 or 204 is logged as success and any other status
is logged as an error with the body, returning normally; a transport-level
failure is logged as an error under its carried status or the generic
server-error code 500 and also returns normally; but when a response is
received and reading its body fails, the body-read unwrap panics and the
dispatch aborts the invoking command. -/
theorem handle_request_spec (status : Nat) (body : String) (st : Option Nat) :
    ((status = 200 ∨ status = 201 ∨ status = 204) →
      handle_request (.ok status (some body)) = some .success)
    ∧ (status ≠ 200 → status ≠ 201 → status ≠ 204 →
        handle_request (.ok status (some body)) = some (.failure status (some body)))
    ∧ handle_request (.err st) = some (.failure (st.getD 500) none)
    ∧ handle_request (.err none) = some (.failure 500 none)
    ∧ handle_request (.ok status none) = none := by
  refine ⟨?_, ?_, rfl, rfl, rfl⟩
  · rintro (rfl | rfl | rfl) <;> rfl
  · intro h1 h2 h3
    unfold handle_request
    simp [h1, h2, h3]

/-- C6 witness: with readable bodies, status 204 logs success and status 500
logs an error with the body, both returning normally. -/
theorem handle_request_spec_witness :
    handle_request (.ok 204 (some "")) = some .success ∧
    handle_request (.ok 500 (some "oops")) = some (.failure 500 (some "oops")) :=
  ⟨(handle_request_spec 204 "" none).1 (Or.inr (Or.inr rfl)),
   (handle_request_spec 500 "oops" none).2.1 (by decide) (by decide) (by decide)⟩

/-- C7: launching applies all seven composed bindings to the child process
environment, and exactly the `DYLD_LIBRARY_PATH` binding is emitted with its
value wrapped in literal double-quote characters, the other six unquoted. -/
theorem invoke_env_calls_spec (e : BepInExEnvironment) :
    invoke_env_calls e = quoted_emission e
    ∧ (invoke_env_calls e).length = 7
    ∧ ((invoke_env_calls e).map Prod.fst).Nodup
    ∧ (invoke_env_calls e).map Prod.fst =
        [DOORSTOP_ENABLE_VAR, DOORSTOP_INVOKE_DLL_PATH_VAR,
         DOORSTOP_CORLIB_OVERRIDE_PATH_VAR, LD_LIBRARY_PATH_VAR, LD_PRELOAD_VAR,
         DYLD_LIBRARY_PATH_VAR, DYLD_INSERT_LIBRARIES_VAR] := by
  refine ⟨rfl, rfl, ?_, rfl⟩
  have hkeys : (invoke_env_calls e).map Prod.fst =
      [DOORSTOP_ENABLE_VAR, DOORSTOP_INVOKE_DLL_PATH_VAR,
       DOORSTOP_CORLIB_OVERRIDE_PATH_VAR, LD_LIBRARY_PATH_VAR, LD_PRELOAD_VAR,
       DYLD_LIBRARY_PATH_VAR, DYLD_INSERT_LIBRARIES_VAR] := rfl
  rw [hkeys]
  decide

/-- C8: with no `DYLD_INSERT_LIBRARIES` override, the mac preload list is the
resolved mod-loader library dir, a `/`, and the resolved library name with
every `:` character removed. -/
theorem doorstop_insert_lib_default (env : EnvMap) (wd : String)
    (h : env DYLD_INSERT_LIBRARIES_VAR = none) :
    doorstop_insert_lib env wd =
      doorstop_libs env wd ++ "/" ++ removeColons (doorstop_lib env) := by
  simp [doorstop_insert_lib, fetch_var, h]

/-- C8 witness: library name `lib:doorstop:x64.so` with library dir `/d`
yields `/d/libdoorstopx64.so`. -/
theorem doorstop_insert_lib_default_witness :
    envColonLib DYLD_INSERT_LIBRARIES_VAR = none ∧
    doorstop_insert_lib envColonLib "/wd" = "/d/libdoorstopx64.so" := by
  refine ⟨by decide, ?_⟩
  rw [doorstop_insert_lib_default envColonLib "/wd" (by decide)]
  decide

/-- C9: the notification `send_custom_notification` sends keeps the
event type and timestamp of the freshly constructed default message and
replaces only its event message with the supplied string. -/
theorem custom_notification_frame (e : NotificationEvent) (now message : String) :
    (custom_notification e now message).event_message = message
    ∧ (custom_notification e now message).event_type =
        (create_notification_message e now).event_type
    ∧ (custom_notification e now message).timestamp =
        (create_notification_message e now).timestamp :=
  ⟨rfl, rfl, rfl⟩

/-- C10: in `send_notification` the override message is read from the raw
configuration entry under the derived key, so a key set to the empty string
makes the empty string replace the default event message, while a
`fetch_var` (ConfigResolver) lookup of the same key would fall back to the
default. -/
theorem send_notification_empty_override (env : EnvMap) (e : NotificationEvent)
    (now : String)
    (hen : is_webhook_enabled env = true)
    (hkey : env (parse_webhook_env_var e.to_event_type) = some "")
    (hd : is_discord_webhook (fetch_webhook_url env) = false)
    (ht : is_telegram_api (fetch_webhook_url env) = false) :
    send_notification env e now =
      .sent { url := fetch_webhook_url env
              payload := .generic { event_type := e.to_event_type
                                    event_message := ""
                                    timestamp := now } }
    ∧ ∀ dflt, fetch_var env (parse_webhook_env_var e.to_event_type) dflt = dflt := by
  constructor
  · simp [send_notification, hen, create_notification_message, hkey,
      send_custom_notification, build_payload, hd, ht, custom_notification]
  · intro dflt
    simp [fetch_var, hkey]

/-- C10 witness: a valid webhook URL with `WEBHOOK_STOP_RUNNING_MESSAGE` set
to the empty string sends an empty event message, while `fetch_var` on the
same key returns the default. -/
theorem send_notification_empty_override_witness :
    send_notification envEmptyOverride (.Stop .Running) "T" =
      .sent { url := "http://127.0.0.1:3000/dummy-url"
              payload := .generic { event_type := { name := "Stop", status := "Running" }
                                    event_message := ""
                                    timestamp := "T" } }
    ∧ fetch_var envEmptyOverride "WEBHOOK_STOP_RUNNING_MESSAGE"
        "Server Status: Stop Running" = "Server Status: Stop Running" := by
  have h := send_notification_empty_override envEmptyOverride (.Stop .Running) "T"
    (by decide) (by decide) (by decide) (by decide)
  exact ⟨h.1.trans (by decide), h.2 "Server Status: Stop Running"⟩

end Odin
